import Mathlib

/-!
# Verification development for `examples/triangle/main_raspberry.go`

A shallow embedding of the triangle example: the package-level variables, the
matrix helpers `makeZRotMatrix` and `makeScaleMatrix`, `check`, `draw`,
`initialize`, `printInfo` and `main`, followed by the theorems about them.

Conventions of the embedding.

* Scalars (`float32` in the source) are an arbitrary type `α`; the theorems that
  need arithmetic take `α` to be a commutative ring or the real numbers, that is
  exact arithmetic. The conversions `float32(..)` and `float64(..)` are the
  identity there.
* `mathgl.Mat4` is `[16]float32`, here `Fin 16 → α`, column-major as in OpenGL.
* Calls into the GL and EGL bindings are recorded in a trace. What the driver
  answers (locations, buffer names, strings, the error flag each call leaves) is
  a parameter `Driver`. Such calls return; the only `panic` of the file is the
  one in `check`, and a panic is `Except.error` with its message.
* The endless `for` of `main` is run for a given number of iterations.
-/

namespace Triangle

/-! ## Matrices -/

/-- The type `mathgl.Mat4`, an array of 16 scalars. -/
abbrev Mat4 (α : Type) := Fin 16 → α

/-- The assignment `m[i] = v`. -/
def Mat4.set {α : Type} (m : Mat4 α) (i : Fin 16) (v : α) : Mat4 α :=
  fun j => if j = i then v else m j

/-- The zero value of `mathgl.Mat4`, what `var mat, rot, scale mathgl.Mat4` declares. -/
def Mat4.zero {α : Type} [Zero α] : Mat4 α := fun _ => 0

/-- Modelled from the spec: `(*mathgl.Mat4).Identity` of the library
`github.com/mortdeus/mathgl`, which is not part of this repository. It overwrites the
receiver with the identity matrix. -/
def Mat4.Identity {α : Type} [Zero α] [One α] (_m : Mat4 α) : Mat4 α :=
  fun j => if j = 0 ∨ j = 5 ∨ j = 10 ∨ j = 15 then 1 else 0

/-- Modelled from the spec: `(*mathgl.Mat4).Multiply` of the library
`github.com/mortdeus/mathgl`, which is not part of this repository. The receiver becomes
the 4x4 matrix product receiver * argument, both column-major: entry `4*col + row` of the
product is the sum over `k` of `m[4*k + row] * m2[4*col + k]`. -/
def Mat4.Multiply {α : Type} [Add α] [Mul α] (m m2 : Mat4 α) : Mat4 α :=
  fun j =>
    let row : Nat := j.val % 4
    let col : Nat := j.val / 4
    let a : Nat → α := fun k => m ⟨(4 * k + row) % 16, Nat.mod_lt _ (by decide)⟩
    let b : Nat → α := fun k => m2 ⟨(4 * col + k) % 16, Nat.mod_lt _ (by decide)⟩
    a 0 * b 0 + a 1 * b 1 + a 2 * b 2 + a 3 * b 3

/-- The functions and the constant of Go's `math` package that the program uses. -/
structure MathLib (α : Type) where
  /-- The function `math.Cos`. -/
  Cos : α → α
  /-- The function `math.Sin`. -/
  Sin : α → α
  /-- The constant `math.Pi`. -/
  Pi : α

/-- The source's `makeZRotMatrix(angle, m)`; the result is the new content of `*m`. -/
def makeZRotMatrix {α : Type} [Field α] (M : MathLib α) (angle : α) (m : Mat4 α) : Mat4 α :=
  let c := M.Cos (angle * M.Pi / 180.0)
  let s := M.Sin (angle * M.Pi / 180.0)
  let m := m.Identity
  let m := m.set 0 c
  let m := m.set 1 s
  let m := m.set 4 (-s)
  let m := m.set 5 c
  m

/-- The source's `makeScaleMatrix(xs, ys, zs, m)`; the result is the new content of `*m`. -/
def makeScaleMatrix {α : Type} [One α] (xs ys zs : α) (m : Mat4 α) : Mat4 α :=
  let m := m.set 0 xs
  let m := m.set 5 ys
  let m := m.set 10 zs
  let m := m.set 15 1
  m

/-- The first five lines of `draw`: the matrix `mat` handed to `gl.UniformMatrix4fv`
when the global `viewRotX` holds `viewRotX`. -/
def drawMatrix {α : Type} [Field α] (M : MathLib α) (viewRotX : α) : Mat4 α :=
  let rot : Mat4 α := Mat4.zero
  let scale : Mat4 α := Mat4.zero
  let rot := makeZRotMatrix M viewRotX rot
  let scale := makeScaleMatrix 0.5 0.5 0.5 scale
  let rot := rot.Multiply scale
  let mat := rot
  mat

/-! ## Machine integers and formatting -/

/-- The Go conversions `int32(x)` and `gl.Sizei(x)`: wrap into the signed 32-bit range. -/
def toInt32 (x : Int) : Int := (x + 2 ^ 31) % 2 ^ 32 - 2 ^ 31

/-- The Go conversion `uint32(x)`: wrap into the unsigned 32-bit range. -/
def toUint32 (x : Int) : Nat := (x % 2 ^ 32).toNat

/-- One lowercase hexadecimal digit, as the verb `%x` prints it. -/
def hexDigit (d : Nat) : Char := if d < 10 then Char.ofNat (48 + d) else Char.ofNat (87 + d)

/-- The digits `%x` prints for an unsigned number, most significant first. -/
def hexDigits (n : Nat) : List Char :=
  if _h : n < 16 then [hexDigit n] else hexDigits (n / 16) ++ [hexDigit (n % 16)]
termination_by n
decreasing_by omega

/-- The value of one hexadecimal digit. -/
def hexDigitValue (c : Char) : Nat := if c.toNat < 58 then c.toNat - 48 else c.toNat - 87

/-- The number a string of hexadecimal digits denotes. -/
def hexValue (cs : List Char) : Nat := cs.foldl (fun acc c => 16 * acc + hexDigitValue c) 0

/-- The call `fmt.Sprintf("An error occurred! Code: 0x%x", error)`. -/
def errorMessage (error : Nat) : String :=
  "An error occurred! Code: 0x" ++ String.mk (hexDigits error)

/-! ## The GL context -/

/-- The constant `gl.ARRAY_BUFFER`. -/
def ARRAY_BUFFER : Nat := 0x8892
/-- The constant `gl.STATIC_DRAW`. -/
def STATIC_DRAW : Nat := 0x88E4
/-- The constant `gl.FLOAT`. -/
def FLOAT : Nat := 0x1406
/-- The constant `gl.TRIANGLES`. -/
def TRIANGLES : Nat := 0x0004
/-- The constant `gl.COLOR_BUFFER_BIT`. -/
def COLOR_BUFFER_BIT : Nat := 0x4000
/-- The constant `gl.DEPTH_BUFFER_BIT`. -/
def DEPTH_BUFFER_BIT : Nat := 0x0100
/-- The constant `gl.VENDOR`. -/
def VENDOR : Nat := 0x1F00
/-- The constant `gl.RENDERER`. -/
def RENDERER : Nat := 0x1F01
/-- The constant `gl.VERSION`. -/
def VERSION : Nat := 0x1F02
/-- The constant `gl.EXTENSIONS`. -/
def EXTENSIONS : Nat := 0x1F03

/-- The calls into the `opengles2` binding that the program makes, with their arguments
(data behind a pointer argument is recorded by value). -/
inductive GLCall (α : Type) where
  | Viewport (x y width height : Int)
  | ClearColor (r g b a : α)
  | UseProgram (program : Nat)
  | GetAttribLocation (program : Nat) (name : String)
  | GetUniformLocation (program : Nat) (name : String)
  | GenBuffers (n : Int)
  | BindBuffer (target buffer : Nat)
  | BufferData (target : Nat) (size : Int) (data : List α) (usage : Nat)
  | EnableVertexAttribArray (index : Nat)
  | UniformMatrix4fv (location count : Int) (transpose : Bool) (value : Mat4 α)
  | Clear (mask : Nat)
  | VertexAttribPointer (index : Nat) (size : Int) (typ : Nat) (normalized : Bool)
      (stride : Int)
  | DrawArrays (mode : Nat) (first count : Int)
  | Flush
  | Finish
  | GetString (name : Nat)
  | GetError

/-- What the program does to the outside world, in the order it does it. -/
inductive Event (α : Type) where
  /-- A call into the GL binding. -/
  | gl (c : GLCall α)
  /-- The call `egl.BCMHostInit()`. -/
  | BCMHostInit
  /-- The call `platform.Initialize(..)`. -/
  | platformInitialize
  /-- The call `Program(FragmentShader(fsh), VertexShader(vsh))`. -/
  | shaderProgram
  /-- The call `egl.SwapBuffers(..)`. -/
  | SwapBuffers
  /-- The call `egl.DestroySurface(..)`. -/
  | DestroySurface
  /-- The call `egl.DestroyContext(..)`. -/
  | DestroyContext
  /-- The call `egl.Terminate(..)`. -/
  | Terminate
  /-- A line written by `log.Printf`. -/
  | log (line : String)
  /-- The call `time.Sleep(d)`, `d` in nanoseconds. -/
  | sleep (d : Nat)

/-- The answers of the graphics driver, which the program does not control. -/
structure Driver (α : Type) where
  /-- The error flag a GL call leaves, from the events so far, the flag before the call
  and the call. -/
  errorAfter : List (Event α) → Nat → GLCall α → Nat
  /-- The result of `gl.GetAttribLocation`. -/
  attribLocation : Nat → String → Int
  /-- The result of `gl.GetUniformLocation`. -/
  uniformLocation : Nat → String → Int
  /-- The buffer name `gl.GenBuffers(1, ..)` stores, from the events so far. -/
  genBuffer : List (Event α) → Nat
  /-- The result of `gl.GetString`. -/
  getString : Nat → String
  /-- Modelled from the spec: the handle returned by the shader helpers
  `Program(FragmentShader(fsh), VertexShader(vsh))`, functions of package `main` whose
  file is absent; they compile and link the shader pair. -/
  program : List (Event α) → Nat
  /-- The error flag the shader helpers leave, from the flag before. -/
  programError : Nat → Nat

/-! ## The program state -/

/-- The package-level variables of the program. -/
structure Globals (α : Type) where
  verticesArrayBuffer : Nat
  colorsArrayBuffer : Nat
  attrPos : Nat
  attrColor : Nat
  viewRotX : α
  viewRotY : α
  uMatrix : Int
  vertices : Fin 12 → α
  colors : Fin 12 → α
  currWidth : Int
  currHeight : Int

/-- The program state: the package-level variables, the GL error flag (what
`gl.GetError` would return) and the events so far. -/
structure State (α : Type) where
  globals : Globals α
  glError : Nat
  trace : List (Event α)

/-- A panic: its message and the state in which it was raised. -/
structure Panic (α : Type) where
  msg : String
  state : State α

/-- The outcome of running a piece of the program: a panic or the state it returns in. -/
abbrev Result (α : Type) := Except (Panic α) (State α)

/-- The constant `INITIAL_WINDOW_WIDTH`. -/
def INITIAL_WINDOW_WIDTH : Int := 1920
/-- The constant `INITIAL_WINDOW_HEIGHT`. -/
def INITIAL_WINDOW_HEIGHT : Int := 1080

/-- The initial value of the variable `vertices`. -/
def vertices {α : Type} [Field α] : Fin 12 → α :=
  ![-1.0, -1.0, 0.0, 1.0,
    1.0, -1.0, 0.0, 1.0,
    0.0, 1.0, 0.0, 1.0]

/-- The initial value of the variable `colors`. -/
def colors {α : Type} [Field α] : Fin 12 → α :=
  ![1.0, 0.0, 0.0, 1.0,
    0.0, 1.0, 0.0, 1.0,
    0.0, 0.0, 1.0, 1.0]

/-- The package-level variables when `main` starts: the declared initial values, and
the zero value where none is declared. -/
def initGlobals {α : Type} [Field α] : Globals α where
  verticesArrayBuffer := 0
  colorsArrayBuffer := 0
  attrPos := 0
  attrColor := 0
  viewRotX := 0
  viewRotY := 0
  uMatrix := 0
  vertices := vertices
  colors := colors
  currWidth := INITIAL_WINDOW_WIDTH
  currHeight := INITIAL_WINDOW_HEIGHT

/-- The state in which `main` starts: no event yet, no GL error. -/
def initState {α : Type} [Field α] : State α where
  globals := initGlobals
  glError := 0
  trace := []

/-! ## The program -/

section Program

variable {α : Type}

/-- Appends an event to the trace. -/
def emit (e : Event α) (s : State α) : State α :=
  { s with trace := s.trace ++ [e] }

/-- A call into the GL binding: the driver sets the error flag and the call is recorded. -/
def glCall (D : Driver α) (c : GLCall α) (s : State α) : State α :=
  { s with glError := D.errorAfter s.trace s.glError c, trace := s.trace ++ [Event.gl c] }

/-- The call `gl.GetError()`: returns the error flag and resets it to zero. -/
def glGetError (s : State α) : Nat × State α :=
  (s.glError, { s with glError := 0, trace := s.trace ++ [Event.gl GLCall.GetError] })

/-- The source's `check`. -/
def check (s : State α) : Result α :=
  let (error, s) := glGetError s
  if error ≠ 0 then
    Except.error ⟨errorMessage error, s⟩
  else
    Except.ok s

/-- The source's `initShaders`. -/
def initShaders [Field α] (D : Driver α) (s : State α) : Result α :=
  let program := D.program s.trace
  let s := { emit Event.shaderProgram s with glError := D.programError s.glError }
  let s := glCall D (GLCall.UseProgram program) s
  let s := glCall D (GLCall.GetAttribLocation program "pos") s
  let s := { s with globals.attrPos := toUint32 (D.attribLocation program "pos") }
  let s := glCall D (GLCall.GetAttribLocation program "color") s
  let s := { s with globals.attrColor := toUint32 (D.attribLocation program "color") }
  let s := glCall D (GLCall.GetUniformLocation program "modelviewProjection") s
  let s := { s with
    globals.uMatrix := toInt32 (D.uniformLocation program "modelviewProjection") }
  let s := { glCall D (GLCall.GenBuffers 1) s with
    globals.verticesArrayBuffer := D.genBuffer s.trace }
  let s := glCall D (GLCall.BindBuffer ARRAY_BUFFER s.globals.verticesArrayBuffer) s
  let s := glCall D (GLCall.BufferData ARRAY_BUFFER (12 * 4)
    (List.ofFn s.globals.vertices) STATIC_DRAW) s
  let s := { glCall D (GLCall.GenBuffers 1) s with
    globals.colorsArrayBuffer := D.genBuffer s.trace }
  let s := glCall D (GLCall.BindBuffer ARRAY_BUFFER s.globals.colorsArrayBuffer) s
  let s := glCall D (GLCall.BufferData ARRAY_BUFFER (12 * 4)
    (List.ofFn s.globals.colors) STATIC_DRAW) s
  let s := glCall D (GLCall.EnableVertexAttribArray s.globals.attrPos) s
  let s := glCall D (GLCall.EnableVertexAttribArray s.globals.attrColor) s
  Except.ok s

/-- The source's `initialize` (a reserved word here, hence the name). -/
def initializeAll [Field α] (D : Driver α) (s : State α) : Result α :=
  let s := emit Event.BCMHostInit s
  let s := emit Event.platformInitialize s
  let s := glCall D (GLCall.Viewport 0 0 INITIAL_WINDOW_WIDTH INITIAL_WINDOW_HEIGHT) s
  let s := glCall D (GLCall.ClearColor 0.0 0.0 0.0 1.0) s
  initShaders D s

/-- The source's `update`. -/
def update (s : State α) : Result α :=
  Except.ok (emit (Event.sleep (1000000 * 10)) s)

/-- The source's `draw`. -/
def draw [Field α] (D : Driver α) (M : MathLib α) (width height : Int) (s : State α) :
    Result α :=
  let mat := drawMatrix M s.globals.viewRotX
  let s := glCall D (GLCall.UniformMatrix4fv s.globals.uMatrix 1 false mat) s
  let s := glCall D (GLCall.Viewport 0 0 (toInt32 width) (toInt32 height)) s
  let s := glCall D (GLCall.Clear (COLOR_BUFFER_BIT ||| DEPTH_BUFFER_BIT)) s
  let s := glCall D (GLCall.BindBuffer ARRAY_BUFFER s.globals.verticesArrayBuffer) s
  let s := glCall D (GLCall.VertexAttribPointer s.globals.attrPos 4 FLOAT false 0) s
  let s := glCall D (GLCall.BindBuffer ARRAY_BUFFER s.globals.colorsArrayBuffer) s
  let s := glCall D (GLCall.VertexAttribPointer s.globals.attrColor 4 FLOAT false 0) s
  let s := glCall D (GLCall.DrawArrays TRIANGLES 0 3) s
  let s := glCall D GLCall.Flush s
  let s := glCall D GLCall.Finish s
  Except.ok s

/-- The source's `cleanup`. -/
def cleanup (s : State α) : State α :=
  let s := emit Event.DestroySurface s
  let s := emit Event.DestroyContext s
  let s := emit Event.Terminate s
  s

/-- The source's `reshape`. -/
def reshape (D : Driver α) (width height : Int) (s : State α) : Result α :=
  Except.ok (glCall D (GLCall.Viewport 0 0 (toInt32 width) (toInt32 height)) s)

/-- One statement `log.Printf(format, gl.GetString(name))` of `printInfo`, where `label`
is the format up to its `%s`: the argument is evaluated, then the line is logged. -/
def logString (D : Driver α) (label : String) (name : Nat) (s : State α) : State α :=
  let s := glCall D (GLCall.GetString name) s
  emit (Event.log (label ++ D.getString name ++ "\n")) s

/-- The source's `printInfo`. -/
def printInfo (D : Driver α) (s : State α) : Result α :=
  let s := logString D "GL_RENDERER   = " RENDERER s
  let s := logString D "GL_VERSION    = " VERSION s
  let s := logString D "GL_VENDOR     = " VENDOR s
  let s := logString D "GL_EXTENSIONS = " EXTENSIONS s
  Except.ok s

/-- The loop `for { draw(currWidth, currHeight); egl.SwapBuffers(..) }` of `main`, run
for the given number of iterations. -/
def renderLoop [Field α] (D : Driver α) (M : MathLib α) : Nat → State α → Result α
  | 0, s => Except.ok s
  | n + 1, s =>
    match draw D M s.globals.currWidth s.globals.currHeight s with
    | Except.error p => Except.error p
    | Except.ok s => renderLoop D M n (emit Event.SwapBuffers s)

/-- The source's `main`, where `info` is the value of the flag `-info` and the loop is
run for `iterations` iterations. The deferred `cleanup` runs when the loop panics. -/
def main [Field α] (D : Driver α) (M : MathLib α) (info : Bool) (iterations : Nat)
    (s : State α) : Result α :=
  match initializeAll D s with
  | Except.error p => Except.error p
  | Except.ok s =>
    match (if info then printInfo D s else Except.ok s) with
    | Except.error p => Except.error p
    | Except.ok s =>
      match renderLoop D M iterations s with
      | Except.error p => Except.error ⟨p.msg, cleanup p.state⟩
      | Except.ok s => Except.ok s

end Program

/-! ## Observations on runs -/

section Observations

variable {α : Type}

/-- The state a piece of the program ends in, returning or panicking. -/
def Result.state : Result α → State α
  | Except.ok s => s
  | Except.error p => p.state

/-- Whether a piece of the program panicked. -/
def Result.panicked : Result α → Bool
  | Except.ok _ => false
  | Except.error _ => true

/-- The lines written to the log, in order. -/
def logLines (t : List (Event α)) : List String :=
  t.filterMap fun e => match e with
    | Event.log line => some line
    | _ => none

/-- The matrices handed to `gl.UniformMatrix4fv`, in order. -/
def uploads (t : List (Event α)) : List (Mat4 α) :=
  t.filterMap fun e => match e with
    | Event.gl (GLCall.UniformMatrix4fv _ _ _ value) => some value
    | _ => none

/-- Is the event a call `gl.DrawArrays`? -/
def Event.isDrawArrays : Event α → Bool
  | Event.gl (GLCall.DrawArrays _ _ _) => true
  | _ => false

/-- Is the event a call `egl.SwapBuffers`? -/
def Event.isSwapBuffers : Event α → Bool
  | Event.SwapBuffers => true
  | _ => false

/-- Is the event a call `gl.GetError`? -/
def Event.isGetError : Event α → Bool
  | Event.gl GLCall.GetError => true
  | _ => false

/-- The events of one call `draw(width, height)` when the package-level variables are
`g`, in the order of the statements of `draw`. -/
def drawEvents [Field α] (M : MathLib α) (g : Globals α) (width height : Int) :
    List (Event α) :=
  [Event.gl (GLCall.UniformMatrix4fv g.uMatrix 1 false (drawMatrix M g.viewRotX)),
   Event.gl (GLCall.Viewport 0 0 (toInt32 width) (toInt32 height)),
   Event.gl (GLCall.Clear (COLOR_BUFFER_BIT ||| DEPTH_BUFFER_BIT)),
   Event.gl (GLCall.BindBuffer ARRAY_BUFFER g.verticesArrayBuffer),
   Event.gl (GLCall.VertexAttribPointer g.attrPos 4 FLOAT false 0),
   Event.gl (GLCall.BindBuffer ARRAY_BUFFER g.colorsArrayBuffer),
   Event.gl (GLCall.VertexAttribPointer g.attrColor 4 FLOAT false 0),
   Event.gl (GLCall.DrawArrays TRIANGLES 0 3),
   Event.gl GLCall.Flush,
   Event.gl GLCall.Finish]

/-- The events of one iteration of the loop of `main`. -/
def frameEvents [Field α] (M : MathLib α) (g : Globals α) : List (Event α) :=
  drawEvents M g g.currWidth g.currHeight ++ [Event.SwapBuffers]

/-- The events of `printInfo`: four times a `gl.GetString` and the line logged with its
result, for the renderer, the version, the vendor and the extensions. -/
def infoEvents (D : Driver α) : List (Event α) :=
  [Event.gl (GLCall.GetString RENDERER),
   Event.log ("GL_RENDERER   = " ++ D.getString RENDERER ++ "\n"),
   Event.gl (GLCall.GetString VERSION),
   Event.log ("GL_VERSION    = " ++ D.getString VERSION ++ "\n"),
   Event.gl (GLCall.GetString VENDOR),
   Event.log ("GL_VENDOR     = " ++ D.getString VENDOR ++ "\n"),
   Event.gl (GLCall.GetString EXTENSIONS),
   Event.log ("GL_EXTENSIONS = " ++ D.getString EXTENSIONS ++ "\n")]

/-- The `i`-th row of four components of an array of twelve. -/
def row (a : Fin 12 → α) (i : Fin 3) : Fin 4 → α :=
  fun k => a ⟨4 * i.val + k.val, by omega⟩

/-- An example driver over the rationals: every `gl.DrawArrays` leaves the error code
`GL_INVALID_OPERATION` (0x0502), the other calls leave the flag as it is. -/
def faultyDriver : Driver ℚ where
  errorAfter := fun _ flag c => match c with
    | GLCall.DrawArrays _ _ _ => 0x0502
    | _ => flag
  attribLocation := fun _ name => if name = "pos" then 0 else 1
  uniformLocation := fun _ _ => 0
  genBuffer := fun t => t.length
  getString := fun _ => "example"
  program := fun _ => 1
  programError := fun flag => flag

/-- An example `math` package over the rationals: Taylor polynomials for cosine and
sine and the approximation 355/113 of pi. -/
def polyMath : MathLib ℚ where
  Cos := fun x => 1 - x ^ 2 / 2 + x ^ 4 / 24
  Sin := fun x => x - x ^ 3 / 6 + x ^ 5 / 120
  Pi := 355 / 113

end Observations

/-! ## The matrix helpers -/

section Matrices

variable {α : Type}

/-- A vector of 16 entries, as a case distinction on the index. -/
theorem vec16_apply (a0 a1 a2 a3 a4 a5 a6 a7 a8 a9 a10 a11 a12 a13 a14 a15 : α) :
    ![a0, a1, a2, a3, a4, a5, a6, a7, a8, a9, a10, a11, a12, a13, a14, a15] =
      fun j : Fin 16 => if j = 0 then a0 else if j = 1 then a1 else if j = 2 then a2
        else if j = 3 then a3 else if j = 4 then a4 else if j = 5 then a5
        else if j = 6 then a6 else if j = 7 then a7 else if j = 8 then a8
        else if j = 9 then a9 else if j = 10 then a10 else if j = 11 then a11
        else if j = 12 then a12 else if j = 13 then a13 else if j = 14 then a14
        else a15 := by
  funext j
  fin_cases j <;> rfl

/-- The matrix `makeZRotMatrix` leaves in `m`, entry by entry. -/
theorem makeZRotMatrix_eq [Field α] (M : MathLib α) (angle : α) (m : Mat4 α) :
    makeZRotMatrix M angle m =
      ![M.Cos (angle * M.Pi / 180.0), M.Sin (angle * M.Pi / 180.0), 0, 0,
        -M.Sin (angle * M.Pi / 180.0), M.Cos (angle * M.Pi / 180.0), 0, 0,
        0, 0, 1, 0,
        0, 0, 0, 1] := by
  funext j
  fin_cases j <;> rfl

/-- The matrix `makeScaleMatrix` leaves in `m`, entry by entry. -/
theorem makeScaleMatrix_eq [One α] (xs ys zs : α) (m : Mat4 α) :
    makeScaleMatrix xs ys zs m =
      ![xs, m 1, m 2, m 3,
        m 4, ys, m 6, m 7,
        m 8, m 9, zs, m 11,
        m 12, m 13, m 14, 1] := by
  funext j
  fin_cases j <;> rfl

/-- C2: for every angle and every prior content of `m`, `makeZRotMatrix(angle, m)` leaves
in `m` the Z-axis rotation matrix, `m[0] = c`, `m[1] = s`, `m[4] = -s`, `m[5] = c`,
`m[10] = m[15] = 1` and zero in the other ten entries, with `c` and `s` the cosine and
sine of `angle*pi/180`; the result is the same for every prior content. -/
theorem makeZRotMatrix_is_z_rotation [Field α] (M : MathLib α) (angle : α) (m : Mat4 α) :
    (makeZRotMatrix M angle m 0 = M.Cos (angle * M.Pi / 180.0) ∧
      makeZRotMatrix M angle m 1 = M.Sin (angle * M.Pi / 180.0) ∧
      makeZRotMatrix M angle m 4 = -M.Sin (angle * M.Pi / 180.0) ∧
      makeZRotMatrix M angle m 5 = M.Cos (angle * M.Pi / 180.0) ∧
      makeZRotMatrix M angle m 10 = 1 ∧
      makeZRotMatrix M angle m 15 = 1 ∧
      ∀ j ∈ ([2, 3, 6, 7, 8, 9, 11, 12, 13, 14] : List (Fin 16)),
        makeZRotMatrix M angle m j = 0) ∧
    ∀ m2 : Mat4 α, makeZRotMatrix M angle m2 = makeZRotMatrix M angle m := by
  refine ⟨?_, fun m2 => by rw [makeZRotMatrix_eq, makeZRotMatrix_eq]⟩
  rw [makeZRotMatrix_eq]
  refine ⟨rfl, rfl, rfl, rfl, rfl, rfl, ?_⟩
  intro j hj
  simp only [List.mem_cons, List.mem_singleton, List.not_mem_nil, or_false] at hj
  rcases hj with h | h | h | h | h | h | h | h | h | h <;> subst h <;> rfl

/-- C9: `makeScaleMatrix(xs, ys, zs, m)` writes entries 0, 5, 10 and 15 (`xs`, `ys`, `zs`
and 1) and leaves each of the other twelve entries as it was; so the result is
`diag(xs, ys, zs, 1)` exactly when those twelve entries of `m` were zero, as for the
zero-valued matrix that `draw` passes. -/
theorem makeScaleMatrix_writes_diagonal_only [Zero α] [One α] (xs ys zs : α) (m : Mat4 α) :
    (makeScaleMatrix xs ys zs m 0 = xs ∧
      makeScaleMatrix xs ys zs m 5 = ys ∧
      makeScaleMatrix xs ys zs m 10 = zs ∧
      makeScaleMatrix xs ys zs m 15 = 1 ∧
      ∀ j ∈ ([1, 2, 3, 4, 6, 7, 8, 9, 11, 12, 13, 14] : List (Fin 16)),
        makeScaleMatrix xs ys zs m j = m j) ∧
    (makeScaleMatrix xs ys zs m =
        ![xs, 0, 0, 0, 0, ys, 0, 0, 0, 0, zs, 0, 0, 0, 0, 1] ↔
      ∀ j ∈ ([1, 2, 3, 4, 6, 7, 8, 9, 11, 12, 13, 14] : List (Fin 16)), m j = 0) ∧
    makeScaleMatrix xs ys zs Mat4.zero =
      ![xs, 0, 0, 0, 0, ys, 0, 0, 0, 0, zs, 0, 0, 0, 0, 1] := by
  have frame : ∀ j ∈ ([1, 2, 3, 4, 6, 7, 8, 9, 11, 12, 13, 14] : List (Fin 16)),
      makeScaleMatrix xs ys zs m j = m j := by
    intro j hj
    rw [makeScaleMatrix_eq]
    simp only [List.mem_cons, List.mem_singleton, List.not_mem_nil, or_false] at hj
    rcases hj with h | h | h | h | h | h | h | h | h | h | h | h <;> subst h <;> rfl
  refine ⟨?_, ⟨fun h j hj => ?_, fun h => ?_⟩, ?_⟩
  · exact ⟨rfl, rfl, rfl, rfl, frame⟩
  · rw [← frame j hj, h]
    simp only [List.mem_cons, List.mem_singleton, List.not_mem_nil, or_false] at hj
    rcases hj with h | h | h | h | h | h | h | h | h | h | h | h <;> subst h <;> rfl
  · rw [makeScaleMatrix_eq, h 1 (by simp), h 2 (by simp), h 3 (by simp), h 4 (by simp),
      h 6 (by simp), h 7 (by simp), h 8 (by simp), h 9 (by simp), h 11 (by simp),
      h 12 (by simp), h 13 (by simp), h 14 (by simp)]
  · rw [makeScaleMatrix_eq]
    rfl

/-- C10: over exact arithmetic (any field), for every angle and every scale whose `x`
and `y` factors agree, the matrix of `makeZRotMatrix` and the scale matrix
`diag(xs, xs, zs, 1)` commute under `Multiply`; so the matrix `draw` uploads is the same
for either operand order. -/
theorem rotation_scale_commute [Field α] (M : MathLib α) (angle xs zs : α)
    (m : Mat4 α) :
    (makeZRotMatrix M angle m).Multiply (makeScaleMatrix xs xs zs Mat4.zero) =
        (makeScaleMatrix xs xs zs Mat4.zero).Multiply (makeZRotMatrix M angle m) ∧
    makeScaleMatrix xs xs zs Mat4.zero =
        ![xs, 0, 0, 0, 0, xs, 0, 0, 0, 0, zs, 0, 0, 0, 0, 1] ∧
    drawMatrix M angle =
        (makeScaleMatrix 0.5 0.5 0.5 Mat4.zero).Multiply
          (makeZRotMatrix M angle Mat4.zero) := by
  have key : ∀ a b : α, (makeZRotMatrix M angle m).Multiply
        (makeScaleMatrix a a b Mat4.zero) =
      (makeScaleMatrix a a b Mat4.zero).Multiply (makeZRotMatrix M angle m) := by
    intro a b
    rw [makeZRotMatrix_eq, makeScaleMatrix_eq]
    funext j
    fin_cases j <;> simp [Mat4.Multiply, Mat4.zero, vec16_apply, mul_comm]
  refine ⟨key xs zs, ?_, ?_⟩
  · rw [makeScaleMatrix_eq]
    rfl
  · have h := key 0.5 0.5
    rw [makeZRotMatrix_eq] at h
    simp only [drawMatrix]
    rw [makeZRotMatrix_eq]
    exact h

end Matrices

/-! ## The constants -/

/-- The literals of `vertices`, as numerals. -/
theorem vertices_eq {α : Type} [Field α] :
    (vertices : Fin 12 → α) = ![-1, -1, 0, 1, 1, -1, 0, 1, 0, 1, 0, 1] := by
  unfold vertices
  norm_num

/-- The literals of `colors`, as numerals. -/
theorem colors_eq {α : Type} [Field α] :
    (colors : Fin 12 → α) = ![1, 0, 0, 1, 0, 1, 0, 1, 0, 0, 1, 1] := by
  unfold colors
  norm_num

/-- C6: `vertices` and `colors` hold three rows of four components each: the vertex rows
are (-1, -1, 0, 1), (1, -1, 0, 1) and (0, 1, 0, 1), the color rows (1, 0, 0, 1),
(0, 1, 0, 1) and (0, 0, 1, 1); so every vertex has z = 0 and w = 1, every color has
alpha = 1 and exactly one of its red, green and blue components is 1. -/
theorem vertices_colors_rows :
    ((List.ofFn (vertices : Fin 12 → ℚ)).length = 12 ∧
      (List.ofFn (colors : Fin 12 → ℚ)).length = 12) ∧
    (row (vertices : Fin 12 → ℚ) 0 = ![-1, -1, 0, 1] ∧
      row (vertices : Fin 12 → ℚ) 1 = ![1, -1, 0, 1] ∧
      row (vertices : Fin 12 → ℚ) 2 = ![0, 1, 0, 1]) ∧
    (row (colors : Fin 12 → ℚ) 0 = ![1, 0, 0, 1] ∧
      row (colors : Fin 12 → ℚ) 1 = ![0, 1, 0, 1] ∧
      row (colors : Fin 12 → ℚ) 2 = ![0, 0, 1, 1]) ∧
    (∀ i : Fin 3, row (vertices : Fin 12 → ℚ) i 2 = 0 ∧
      row (vertices : Fin 12 → ℚ) i 3 = 1) ∧
    (∀ i : Fin 3, row (colors : Fin 12 → ℚ) i 3 = 1 ∧
      List.count 1 [row (colors : Fin 12 → ℚ) i 0, row (colors : Fin 12 → ℚ) i 1,
        row (colors : Fin 12 → ℚ) i 2] = 1) := by
  rw [vertices_eq, colors_eq]
  decide

/-! ## Error checking -/

section Check

variable {α : Type}

theorem hexDigitValue_hexDigit (d : Nat) (h : d < 16) : hexDigitValue (hexDigit d) = d := by
  interval_cases d <;> rfl

theorem hexDigit_lowercase (d : Nat) (h : d < 16) :
    hexDigit d ∈ "0123456789abcdef".data := by
  interval_cases d <;> decide

theorem hexValue_snoc (cs : List Char) (c : Char) :
    hexValue (cs ++ [c]) = 16 * hexValue cs + hexDigitValue c := by
  simp [hexValue, List.foldl_append]

/-- Reading back the digits that `%x` prints gives the number printed. -/
theorem hexValue_hexDigits (n : Nat) : hexValue (hexDigits n) = n := by
  induction n using Nat.strong_induction_on with
  | _ n ih =>
    rw [hexDigits]
    split
    · next h => simp [hexValue, hexDigitValue_hexDigit n h]
    · next h =>
      rw [hexValue_snoc, ih (n / 16) (by omega),
        hexDigitValue_hexDigit _ (Nat.mod_lt _ (by decide))]
      omega

/-- The digits that `%x` prints are lowercase hexadecimal digits. -/
theorem hexDigits_lowercase (n : Nat) : ∀ c ∈ hexDigits n, c ∈ "0123456789abcdef".data := by
  induction n using Nat.strong_induction_on with
  | _ n ih =>
    rw [hexDigits]
    split
    · next h =>
      intro c hc
      rw [List.mem_singleton] at hc
      exact hc ▸ hexDigit_lowercase n h
    · next h =>
      intro c hc
      rcases List.mem_append.mp hc with hc | hc
      · exact ih (n / 16) (by omega) c hc
      · rw [List.mem_singleton] at hc
        exact hc ▸ hexDigit_lowercase _ (Nat.mod_lt _ (by decide))

/-- The message of `check` ends in the digits of the error code. -/
theorem errorMessage_digits (e : Nat) : (errorMessage e).data.drop 27 = hexDigits e := by
  simp [errorMessage, String.data_append]

/-- The two outcomes of `check`. -/
theorem check_eq (s : State α) :
    check s = if s.glError ≠ 0 then
        Except.error ⟨errorMessage s.glError,
          { s with glError := 0, trace := s.trace ++ [Event.gl GLCall.GetError] }⟩
      else
        Except.ok { s with glError := 0, trace := s.trace ++ [Event.gl GLCall.GetError] } :=
  rfl

/-- C4: `check` panics if and only if `gl.GetError` returns a nonzero code; for a nonzero
code `e` the message is "An error occurred! Code: 0x" followed by `e` in lowercase
hexadecimal, so the code can be read back from the message; for code 0 it returns and
leaves the package-level variables and the error flag as they were. -/
theorem check_panics_iff_error (s : State α) :
    ((check s).panicked = true ↔ s.glError ≠ 0) ∧
    (s.glError ≠ 0 → ∃ p, check s = Except.error p ∧
      p.msg = "An error occurred! Code: 0x" ++ String.mk (hexDigits s.glError) ∧
      (∀ c ∈ hexDigits s.glError, c ∈ "0123456789abcdef".data) ∧
      hexValue (p.msg.data.drop 27) = s.glError) ∧
    (s.glError = 0 → ∃ s2, check s = Except.ok s2 ∧ s2.globals = s.globals ∧
      s2.glError = s.glError ∧ s2.trace = s.trace ++ [Event.gl GLCall.GetError]) := by
  refine ⟨?_, fun h => ?_, fun h => ?_⟩
  · rw [check_eq]
    by_cases h : s.glError = 0 <;> simp [h, Result.panicked]
  · refine ⟨_, by rw [check_eq, if_pos h], rfl, hexDigits_lowercase _, ?_⟩
    rw [errorMessage_digits, hexValue_hexDigits]
  · exact ⟨{ s with glError := 0, trace := s.trace ++ [Event.gl GLCall.GetError] },
      by rw [check_eq, if_neg (by simpa using h)], rfl, h.symm, rfl⟩

end Check

/-! ## Runs of the program -/

section Runs

variable {α : Type} [Field α]

/-- A call of `draw` returns, leaves the package-level variables alone and appends its
ten GL calls to the trace. -/
theorem draw_spec (D : Driver α) (M : MathLib α) (width height : Int) (s : State α) :
    ∃ s1, draw D M width height s = Except.ok s1 ∧ s1.globals = s.globals ∧
      s1.trace = s.trace ++ drawEvents M s.globals width height :=
  ⟨_, rfl, rfl, by simp [glCall, drawEvents]⟩

/-- The loop returns after every number of iterations, leaves the package-level
variables alone and appends one frame of events per iteration. -/
theorem renderLoop_spec (D : Driver α) (M : MathLib α) (n : Nat) (s : State α) :
    ∃ s2, renderLoop D M n s = Except.ok s2 ∧ s2.globals = s.globals ∧
      s2.trace = s.trace ++ (List.replicate n (frameEvents M s.globals)).flatten := by
  induction n generalizing s with
  | zero => exact ⟨s, rfl, rfl, by simp⟩
  | succ n ih =>
    obtain ⟨s1, h1, g1, t1⟩ := draw_spec D M s.globals.currWidth s.globals.currHeight s
    obtain ⟨s2, h2, g2, t2⟩ := ih (emit Event.SwapBuffers s1)
    refine ⟨s2, ?_, ?_, ?_⟩
    · simp only [renderLoop, h1, h2]
    · rw [g2]
      exact g1
    · rw [t2]
      have hg : (emit Event.SwapBuffers s1).globals = s.globals := g1
      rw [hg]
      simp [emit, t1, frameEvents, List.replicate_succ]

/-- The shader set-up returns; it assigns neither the rotation angles nor the vertex
arrays, logs nothing, uploads no matrix and draws nothing. -/
theorem initShaders_spec (D : Driver α) (s : State α) :
    ∃ s1, initShaders D s = Except.ok s1 ∧
      s1.globals.viewRotX = s.globals.viewRotX ∧
      s1.globals.vertices = s.globals.vertices ∧
      s1.globals.colors = s.globals.colors ∧
      logLines s1.trace = logLines s.trace ∧
      uploads s1.trace = uploads s.trace ∧
      s1.trace.countP Event.isDrawArrays = s.trace.countP Event.isDrawArrays ∧
      s1.trace.countP Event.isSwapBuffers = s.trace.countP Event.isSwapBuffers :=
  ⟨_, rfl, rfl, rfl, rfl,
    by simp [glCall, emit, logLines],
    by simp [glCall, emit, uploads],
    by simp [glCall, emit, List.countP_cons, Event.isDrawArrays],
    by simp [glCall, emit, List.countP_cons, Event.isSwapBuffers]⟩

/-- The source's `initialize` returns; it assigns neither the rotation angles nor the
vertex arrays, logs nothing, uploads no matrix and draws nothing. -/
theorem initializeAll_spec (D : Driver α) (s : State α) :
    ∃ s1, initializeAll D s = Except.ok s1 ∧
      s1.globals.viewRotX = s.globals.viewRotX ∧
      s1.globals.vertices = s.globals.vertices ∧
      s1.globals.colors = s.globals.colors ∧
      logLines s1.trace = logLines s.trace ∧
      uploads s1.trace = uploads s.trace ∧
      s1.trace.countP Event.isDrawArrays = s.trace.countP Event.isDrawArrays ∧
      s1.trace.countP Event.isSwapBuffers = s.trace.countP Event.isSwapBuffers := by
  obtain ⟨s1, h, r⟩ := initShaders_spec D
    (glCall D (GLCall.ClearColor 0.0 0.0 0.0 1.0)
      (glCall D (GLCall.Viewport 0 0 INITIAL_WINDOW_WIDTH INITIAL_WINDOW_HEIGHT)
        (emit Event.platformInitialize (emit Event.BCMHostInit s))))
  refine ⟨s1, h, ?_⟩
  simpa [glCall, emit, logLines, uploads, List.countP_cons, Event.isDrawArrays,
    Event.isSwapBuffers] using r

/-- The source's `printInfo` returns, leaves the package-level variables alone and
appends its eight events. -/
theorem printInfo_spec {β : Type} (D : Driver β) (s : State β) :
    ∃ s1, printInfo D s = Except.ok s1 ∧ s1.globals = s.globals ∧
      s1.trace = s.trace ++ infoEvents D :=
  ⟨_, rfl, rfl, by simp [logString, glCall, emit, infoEvents]⟩

/-- A run of `main`: the set-up, then the events of `printInfo` when the flag is set,
then one frame of events per iteration. -/
theorem main_spec (D : Driver α) (M : MathLib α) (info : Bool) (n : Nat) (s : State α) :
    ∃ s1 s3, initializeAll D s = Except.ok s1 ∧ main D M info n s = Except.ok s3 ∧
      s3.globals = s1.globals ∧
      s3.trace = s1.trace ++ (if info then infoEvents D else []) ++
        (List.replicate n (frameEvents M s1.globals)).flatten ∧
      s1.globals.viewRotX = s.globals.viewRotX ∧
      s1.globals.vertices = s.globals.vertices ∧
      s1.globals.colors = s.globals.colors ∧
      logLines s1.trace = logLines s.trace ∧
      uploads s1.trace = uploads s.trace ∧
      s1.trace.countP Event.isDrawArrays = s.trace.countP Event.isDrawArrays ∧
      s1.trace.countP Event.isSwapBuffers = s.trace.countP Event.isSwapBuffers := by
  obtain ⟨s1, h1, r⟩ := initializeAll_spec D s
  cases info with
  | false =>
    obtain ⟨s3, h3, g3, t3⟩ := renderLoop_spec D M n s1
    exact ⟨s1, s3, h1, by simp [main, h1, h3], g3, by simpa using t3, r⟩
  | true =>
    obtain ⟨s2, h2, g2, t2⟩ := printInfo_spec D s1
    obtain ⟨s3, h3, g3, t3⟩ := renderLoop_spec D M n s2
    refine ⟨s1, s3, h1, by simp [main, h1, h2, h3], g3.trans g2, ?_, r⟩
    rw [t3, t2, g2]
    simp

/-- No line is logged during the frames. -/
theorem logLines_frames (M : MathLib α) (g : Globals α) (n : Nat) :
    logLines (List.replicate n (frameEvents M g)).flatten = [] := by
  induction n with
  | zero => rfl
  | succ n ih =>
    rw [List.replicate_succ, List.flatten_cons, logLines, List.filterMap_append]
    rw [logLines] at ih
    rw [ih]
    rfl

/-- Each frame uploads the matrix built from `viewRotX`. -/
theorem uploads_frames (M : MathLib α) (g : Globals α) (n : Nat) :
    uploads (List.replicate n (frameEvents M g)).flatten =
      List.replicate n (drawMatrix M g.viewRotX) := by
  induction n with
  | zero => rfl
  | succ n ih =>
    rw [List.replicate_succ, List.flatten_cons, uploads, List.filterMap_append]
    rw [uploads] at ih
    rw [ih]
    rfl

/-- Counting events over the frames. -/
theorem countP_frames (p : Event α → Bool) (M : MathLib α) (g : Globals α) (n : Nat) :
    (List.replicate n (frameEvents M g)).flatten.countP p =
      n * (frameEvents M g).countP p := by
  induction n with
  | zero => simp
  | succ n ih =>
    rw [List.replicate_succ, List.flatten_cons, List.countP_append, ih]
    ring

/-- The events of one frame: no line logged, one matrix uploaded, one `gl.DrawArrays`,
one `egl.SwapBuffers`, no `gl.GetError`. -/
theorem frameEvents_counts (M : MathLib α) (g : Globals α) :
    (frameEvents M g).countP Event.isGetError = 0 ∧
    (frameEvents M g).countP Event.isSwapBuffers = 1 ∧
    (frameEvents M g).countP Event.isDrawArrays = 1 :=
  ⟨rfl, rfl, rfl⟩

/-- The outcome of `check` keeps the package-level variables. -/
theorem check_globals {β : Type} (s : State β) : (check s).state.globals = s.globals := by
  rw [check_eq]
  split <;> rfl

/-- With the real cosine and sine, the matrix built for angle 0 is
`diag(0.5, 0.5, 0.5, 1.0)`. -/
theorem drawMatrix_real_zero :
    drawMatrix (⟨Real.cos, Real.sin, Real.pi⟩ : MathLib ℝ) 0 =
      ![0.5, 0, 0, 0,
        0, 0.5, 0, 0,
        0, 0, 0.5, 0,
        0, 0, 0, 1.0] := by
  simp only [drawMatrix]
  rw [makeZRotMatrix_eq, makeScaleMatrix_eq]
  funext j
  fin_cases j <;> simp [Mat4.Multiply, Mat4.zero, vec16_apply]
  norm_num

/-- C1: for rotation angle 0 the matrix that `draw` builds and uploads is exactly
`diag(0.5, 0.5, 0.5, 1.0)`: entries 0, 5 and 10 are 0.5, entry 15 is 1.0 and the other
twelve entries are 0. Scalars are the real numbers with the real cosine and sine. -/
theorem drawMatrix_angle_zero :
    drawMatrix (⟨Real.cos, Real.sin, Real.pi⟩ : MathLib ℝ) 0 =
        ![0.5, 0, 0, 0,
          0, 0.5, 0, 0,
          0, 0, 0.5, 0,
          0, 0, 0, 1.0] ∧
    ∀ (D : Driver ℝ) (width height : Int) (s : State ℝ), s.globals.viewRotX = 0 →
      uploads (draw D ⟨Real.cos, Real.sin, Real.pi⟩ width height s).state.trace =
        uploads s.trace ++
          [![0.5, 0, 0, 0,
             0, 0.5, 0, 0,
             0, 0, 0.5, 0,
             0, 0, 0, 1.0]] := by
  refine ⟨drawMatrix_real_zero, fun D width height s h => ?_⟩
  obtain ⟨s1, h1, -, t1⟩ := draw_spec D ⟨Real.cos, Real.sin, Real.pi⟩ width height s
  rw [h1, Result.state, t1, uploads, List.filterMap_append, ← uploads, ← drawMatrix_real_zero,
    ← h]
  rfl

/-- C5: the vertex attribute arrays are never mutated: `draw`, `update`, `reshape` and
`check`, run from any state, leave `vertices` and `colors` as they were, and so do any
number of iterations of the loop; after a run of `main` from the initial state both
arrays hold their initial values. The helpers `makeZRotMatrix` and `makeScaleMatrix`
write through their matrix argument only, which is why they are functions on matrices
here. -/
theorem vertex_arrays_never_mutated (D : Driver α) (M : MathLib α) (width height : Int)
    (info : Bool) (n : Nat) (s : State α) :
    ((draw D M width height s).state.globals.vertices = s.globals.vertices ∧
      (draw D M width height s).state.globals.colors = s.globals.colors) ∧
    ((update s).state.globals.vertices = s.globals.vertices ∧
      (update s).state.globals.colors = s.globals.colors) ∧
    ((reshape D width height s).state.globals.vertices = s.globals.vertices ∧
      (reshape D width height s).state.globals.colors = s.globals.colors) ∧
    ((check s).state.globals.vertices = s.globals.vertices ∧
      (check s).state.globals.colors = s.globals.colors) ∧
    ((renderLoop D M n s).state.globals.vertices = s.globals.vertices ∧
      (renderLoop D M n s).state.globals.colors = s.globals.colors) ∧
    ((main D M info n initState).state.globals.vertices = vertices ∧
      (main D M info n initState).state.globals.colors = colors) := by
  refine ⟨⟨rfl, rfl⟩, ⟨rfl, rfl⟩, ⟨rfl, rfl⟩, ?_, ?_, ?_⟩
  · rw [check_globals]
    exact ⟨rfl, rfl⟩
  · obtain ⟨s2, h2, g2, -⟩ := renderLoop_spec D M n s
    rw [h2, Result.state, g2]
    exact ⟨rfl, rfl⟩
  · obtain ⟨s1, s3, -, h3, g3, -, -, hv, hc, -⟩ := main_spec D M info n (initState : State α)
    rw [h3, Result.state, g3, hv, hc]
    exact ⟨rfl, rfl⟩

/-- C3, as the code has it: `draw` and the loop call neither `check` nor `gl.GetError`, so
whatever error codes the driver leaves, `draw` returns, and every iteration of the loop
returns, swaps the buffers and goes on to the next frame; an error code is fatal where
`check` reads it. -/
theorem draw_ignores_gl_errors (D : Driver α) (M : MathLib α) (width height : Int)
    (n : Nat) (s : State α) :
    (draw D M width height s).panicked = false ∧
    (draw D M width height s).state.trace = s.trace ++ drawEvents M s.globals width height ∧
    (renderLoop D M n s).panicked = false ∧
    (renderLoop D M n s).state.trace =
      s.trace ++ (List.replicate n (frameEvents M s.globals)).flatten ∧
    ((frameEvents M s.globals).countP Event.isGetError = 0 ∧
      (frameEvents M s.globals).countP Event.isSwapBuffers = 1 ∧
      (frameEvents M s.globals).countP Event.isDrawArrays = 1) ∧
    ((check s).panicked = true ↔ s.glError ≠ 0) := by
  obtain ⟨s1, h1, -, t1⟩ := draw_spec D M width height s
  obtain ⟨s2, h2, -, t2⟩ := renderLoop_spec D M n s
  refine ⟨by rw [h1]; rfl, by rw [h1]; exact t1, by rw [h2]; rfl, by rw [h2]; exact t2,
    frameEvents_counts M s.globals, ?_⟩
  rw [check_eq]
  by_cases h : s.glError = 0 <;> simp [h, Result.panicked]

/-- C7: in a run of `main` the events of `printInfo` (the renderer, version, vendor and
extensions lines, in that order) occur if and only if the flag `-info` is set, then once,
after all events of the set-up and before the first frame; with the flag unset no line
is logged. -/
theorem printInfo_iff_info_flag (D : Driver α) (M : MathLib α) (info : Bool) (n : Nat)
    (s : State α) :
    ∃ s1 s3, initializeAll D s = Except.ok s1 ∧ main D M info n s = Except.ok s3 ∧
      s3.trace = s1.trace ++ (if info then infoEvents D else []) ++
        (List.replicate n (frameEvents M s1.globals)).flatten ∧
      logLines s1.trace = logLines s.trace ∧
      s1.trace.countP Event.isDrawArrays = s.trace.countP Event.isDrawArrays ∧
      logLines (infoEvents D) =
        ["GL_RENDERER   = " ++ D.getString RENDERER ++ "\n",
         "GL_VERSION    = " ++ D.getString VERSION ++ "\n",
         "GL_VENDOR     = " ++ D.getString VENDOR ++ "\n",
         "GL_EXTENSIONS = " ++ D.getString EXTENSIONS ++ "\n"] ∧
      logLines (List.replicate n (frameEvents M s1.globals)).flatten = [] ∧
      (List.replicate n (frameEvents M s1.globals)).flatten.countP Event.isDrawArrays = n ∧
      logLines s3.trace = logLines s.trace ++
        (if info then
          ["GL_RENDERER   = " ++ D.getString RENDERER ++ "\n",
           "GL_VERSION    = " ++ D.getString VERSION ++ "\n",
           "GL_VENDOR     = " ++ D.getString VENDOR ++ "\n",
           "GL_EXTENSIONS = " ++ D.getString EXTENSIONS ++ "\n"]
        else []) := by
  obtain ⟨s1, s3, h1, h3, -, t3, -, -, -, hl, -, hd, -⟩ := main_spec D M info n s
  have hi : logLines (infoEvents D) =
      ["GL_RENDERER   = " ++ D.getString RENDERER ++ "\n",
       "GL_VERSION    = " ++ D.getString VERSION ++ "\n",
       "GL_VENDOR     = " ++ D.getString VENDOR ++ "\n",
       "GL_EXTENSIONS = " ++ D.getString EXTENSIONS ++ "\n"] := rfl
  have hc : (List.replicate n (frameEvents M s1.globals)).flatten.countP
      Event.isDrawArrays = n := by
    rw [countP_frames, (frameEvents_counts M s1.globals).2.2, Nat.mul_one]
  refine ⟨s1, s3, h1, h3, t3, hl, hd, hi, logLines_frames M s1.globals n, hc, ?_⟩
  have happ : ∀ a b : List (Event α), logLines (a ++ b) = logLines a ++ logLines b :=
    fun a b => List.filterMap_append a b _
  rw [t3, happ, happ, logLines_frames, hl, List.append_nil]
  cases info with
  | false => rfl
  | true => simp only [if_true, hi]

end Runs

/-- C8: `viewRotX` is 0 at startup and none of `initialize`, `initShaders`, `draw`, `update`,
`reshape` and the loop of `main` assigns it; so it is 0 after a run of `main` of any
length, and every iteration uploads the same matrix `diag(0.5, 0.5, 0.5, 1.0)`. Scalars
are the real numbers with the real cosine and sine. -/
theorem viewRotX_always_zero (D : Driver ℝ) (M : MathLib ℝ) (width height : Int)
    (info : Bool) (n : Nat) (s : State ℝ) :
    (initState : State ℝ).globals.viewRotX = 0 ∧
    (initializeAll D s).state.globals.viewRotX = s.globals.viewRotX ∧
    (initShaders D s).state.globals.viewRotX = s.globals.viewRotX ∧
    (draw D M width height s).state.globals.viewRotX = s.globals.viewRotX ∧
    (update s).state.globals.viewRotX = s.globals.viewRotX ∧
    (reshape D width height s).state.globals.viewRotX = s.globals.viewRotX ∧
    (renderLoop D M n s).state.globals.viewRotX = s.globals.viewRotX ∧
    (main D M info n s).state.globals.viewRotX = s.globals.viewRotX ∧
    (main D ⟨Real.cos, Real.sin, Real.pi⟩ info n initState).panicked = false ∧
    (main D ⟨Real.cos, Real.sin, Real.pi⟩ info n initState).state.globals.viewRotX = 0 ∧
    uploads (main D ⟨Real.cos, Real.sin, Real.pi⟩ info n initState).state.trace =
      List.replicate n
        ![0.5, 0, 0, 0,
          0, 0.5, 0, 0,
          0, 0, 0.5, 0,
          0, 0, 0, 1.0] := by
  have hloop : (renderLoop D M n s).state.globals.viewRotX = s.globals.viewRotX := by
    obtain ⟨s2, h2, g2, -⟩ := renderLoop_spec D M n s
    rw [h2, Result.state, g2]
  have hmain : ∀ (M2 : MathLib ℝ) (s0 : State ℝ),
      (main D M2 info n s0).state.globals.viewRotX = s0.globals.viewRotX := by
    intro M2 s0
    obtain ⟨s1, s3, -, h3, g3, -, hx, -⟩ := main_spec D M2 info n s0
    rw [h3, Result.state, g3, hx]
  refine ⟨rfl, rfl, rfl, rfl, rfl, rfl, hloop, hmain M s, ?_, hmain _ _, ?_⟩
  · obtain ⟨s1, s3, -, h3, -⟩ :=
      main_spec D ⟨Real.cos, Real.sin, Real.pi⟩ info n (initState : State ℝ)
    rw [h3]
    rfl
  · obtain ⟨s1, s3, -, h3, -, t3, hx, -, -, -, hu, -⟩ :=
      main_spec D ⟨Real.cos, Real.sin, Real.pi⟩ info n (initState : State ℝ)
    have happ : ∀ a b : List (Event ℝ), uploads (a ++ b) = uploads a ++ uploads b :=
      fun a b => List.filterMap_append a b _
    have hinfo : uploads (if info then infoEvents D else []) = [] := by
      cases info <;> rfl
    rw [h3, Result.state, t3, happ, happ, hu, hinfo, uploads_frames, hx,
      ← drawMatrix_real_zero]
    rfl

/-! ## Concrete runs -/

/-- C3, as stated, fails: with a driver whose `gl.DrawArrays` leaves the error code
0x0502, the set-up ends with the error flag 0, the first frame leaves it at 0x0502, and
yet a run of two iterations does not panic, swaps the buffers twice and draws twice. -/
theorem draw_error_not_fatal :
    (initializeAll faultyDriver initState).state.glError = 0 ∧
    (main faultyDriver polyMath false 1 initState).state.glError = 0x0502 ∧
    (main faultyDriver polyMath false 2 initState).panicked = false ∧
    (main faultyDriver polyMath false 2 initState).state.trace.countP
      Event.isSwapBuffers = 2 ∧
    (main faultyDriver polyMath false 2 initState).state.trace.countP
      Event.isDrawArrays = 2 ∧
    (main faultyDriver polyMath false 2 initState).state.trace.countP
      Event.isGetError = 0 := by
  refine ⟨rfl, rfl, rfl, ?_, ?_, ?_⟩ <;> decide

/-- C4 at a concrete state: with the error code 0x0502 pending, `check` panics with the
message "An error occurred! Code: 0x502". -/
theorem check_panics_iff_error_witness :
    ∃ p, check ({ (initState : State ℚ) with glError := 0x0502 }) = Except.error p ∧
      p.msg = "An error occurred! Code: 0x502" := by
  obtain ⟨p, hp, hm, -⟩ :=
    (check_panics_iff_error ({ (initState : State ℚ) with glError := 0x0502 })).2.1
      (by decide)
  refine ⟨p, hp, ?_⟩
  rw [hm]
  simp [hexDigits, hexDigit]

end Triangle
